/-
Verification of the incremental-build orchestrator src/src/TemplateWriter.js
(the TemplateWriter class of Eleventy) against its natural-language
specification.

The file is a shallow embedding: the JavaScript class fields become a Lean
structure, each method becomes a Lean function on that structure, and the
asynchronous generation protocol of generateTemplates becomes an explicit
small-step machine with a pending-settlement queue that mirrors the
ECMAScript job model (promise reaction callbacks run only when the
synchronous execution stack is empty).

External collaborators (engine registry, passthrough gate, dependency
graph, Template.js handle internals) are not under src/; they enter as
oracle parameters (BuildEnv) or, where the spec pins their surface down,
as definitions marked "Modelled from the spec".
-/
import Mathlib

set_option autoImplicit false

namespace Eleventy

/-- JavaScript truthiness of the incrementalFile field, which holds a string,
null, or undefined. null, undefined and the empty string are falsy. -/
def jsTruthy : Option String → Bool
  | none => false
  | some s => !(s == "")

/-- Modelled from the spec: TemplatePath.stripLeadingDotSlash comes from the
external utility package (not under src/). Per the spec, a SourcePath
"must be stripped of redundant path prefixes"; the utility removes one
redundant leading dot-slash. -/
def stripLeadingDotSlash (s : String) : String :=
  match s.data with
  | '.' :: '/' :: rest => String.mk rest
  | _ => s

/-- Modelled from the spec: the template handle (Template.js is not under
src/). The spec (sections 3 and 6) gives the handle three independently
invalidatable sub-caches (read, data, render), a renderable override that
is a boolean or undefined, a dry-run-via-incremental marker, and per-run
bookkeeping. A true sub-cache flag means the cache currently holds content.
instanceId records the allocation so that handle identity is observable. -/
structure TemplateHandle where
  instanceId : Nat
  inputPath : String
  readCache : Bool
  dataCache : Bool
  renderCache : Bool
  renderableOverride : Option Bool
  isDryRunViaIncremental : Bool
  hasTemplateRenderInstance : Bool
  dataGeneration : Nat
  dryRun : Bool
  verbose : Bool
  perRunWriteCount : Nat
deriving DecidableEq, Repr

/-- Modelled from the spec: resetCaches with no argument is the full reset
applied to pre-existing handles; it invalidates the read, data and render
sub-caches. -/
def TemplateHandle.resetCachesAll (t : TemplateHandle) : TemplateHandle :=
  { t with readCache := false, dataCache := false, renderCache := false }

/-- Modelled from the spec: resetCaches with data and render flags set
(source line 277) clears exactly those two sub-caches, preserving the read
cache (spec invariant 3: the sub-caches are independent). -/
def TemplateHandle.resetCachesDataRender (t : TemplateHandle) : TemplateHandle :=
  { t with dataCache := false, renderCache := false }

/-- Modelled from the spec: resetCaches with only the data flag set
(source line 289) clears exactly the data sub-cache, preserving the read
and render caches. -/
def TemplateHandle.resetCachesDataOnly (t : TemplateHandle) : TemplateHandle :=
  { t with dataCache := false }

/-- Modelled from the spec: setRenderableOverride stores the given value
(false disables rendering, undefined — here none — re-enables it). -/
def TemplateHandle.setRenderableOverrideM (t : TemplateHandle) (v : Option Bool) :
    TemplateHandle :=
  { t with renderableOverride := v }

/-- Modelled from the spec: setDryRunViaIncremental marks the entry to
render from its existing cache contents. -/
def TemplateHandle.setDryRunViaIncrementalM (t : TemplateHandle) : TemplateHandle :=
  { t with isDryRunViaIncremental := true }

/-- The TemplateWriter state: the fields of the JavaScript class that the
claims concern (source lines 21 to 44). The template path cache is the Map
_templatePathCache, kept as an association list in insertion order.
nextTemplateId makes handle allocation observable; templateDataGeneration
stands for the current templateData binding. -/
structure TemplateWriter where
  isVerbose : Bool := true
  isDryRun : Bool := false
  writeCount : Nat := 0
  skippedCount : Nat := 0
  isRunInitialBuild : Bool := true
  incrementalFile : Option String := none
  templatePathCache : List (String × TemplateHandle) := []
  nextTemplateId : Nat := 0
  templateDataGeneration : Nat := 0
deriving DecidableEq, Repr

/-- Lookup in the template path cache: JavaScript Map.get keyed by the
exact string. -/
def cacheLookup : List (String × TemplateHandle) → String → Option TemplateHandle
  | [], _ => none
  | (k, t) :: rest, p => if k = p then some t else cacheLookup rest p

/-- Store in the template path cache: JavaScript Map.set replaces the value
of an existing key and otherwise appends in insertion order. The loop
bodies write the handle back after mutating it, which mirrors the JS
aliasing of the cached object. -/
def cacheStore : List (String × TemplateHandle) → String → TemplateHandle →
    List (String × TemplateHandle)
  | [], p, t => [(p, t)]
  | (k, v) :: rest, p, t =>
      if k = p then (k, t) :: rest else (k, v) :: cacheStore rest p t

/-- restart (source lines 97 to 101): reset both counters to zero. -/
def TemplateWriter.restart (w : TemplateWriter) : TemplateWriter :=
  { w with writeCount := 0, skippedCount := 0 }

/-- A fresh handle as built by the Template constructor for a given path:
empty sub-caches, no overrides, bound to the current data context. -/
def freshHandle (id : Nat) (path : String) (dataGen : Nat) : TemplateHandle :=
  { instanceId := id
    inputPath := path
    readCache := false
    dataCache := false
    renderCache := false
    renderableOverride := none
    isDryRunViaIncremental := false
    hasTemplateRenderInstance := false
    dataGeneration := dataGen
    dryRun := false
    verbose := false
    perRunWriteCount := 0 }

/-- Result of _createTemplate: the (possibly new) handle, the updated
writer, and the wasCached flag. -/
structure CreateResult where
  writer : TemplateWriter
  handle : TemplateHandle
  wasCached : Bool
deriving DecidableEq, Repr

/-- _createTemplate (source lines 150 to 190). The cache is consulted with
the exact path string. A hit rebinds the data context (setTemplateData);
a miss constructs a fresh handle and records it under the exact string.
In both branches setDryRun, setIsVerbose and the per-run reset are applied
before returning. setOutputFormat, the logger, transforms and linters
touch only fields outside this model. The per-run reset is modelled from
the spec (section 4.1) as clearing per-run bookkeeping, not the
read/data/render sub-caches (spec section 8, invalidation correctness,
requires an untouched template to retain its render cache). -/
def TemplateWriter.createTemplate (w : TemplateWriter) (path : String) : CreateResult :=
  match cacheLookup w.templatePathCache path with
  | some t0 =>
      let t1 := { t0 with dataGeneration := w.templateDataGeneration }
      let t2 := { t1 with dryRun := w.isDryRun, verbose := w.isVerbose, perRunWriteCount := 0 }
      { writer := { w with templatePathCache := cacheStore w.templatePathCache path t2 }
        handle := t2
        wasCached := true }
  | none =>
      let t0 := freshHandle w.nextTemplateId path w.templateDataGeneration
      let t2 := { t0 with dryRun := w.isDryRun, verbose := w.isVerbose, perRunWriteCount := 0 }
      { writer := { w with templatePathCache := cacheStore w.templatePathCache path t2,
                           nextTemplateId := w.nextTemplateId + 1 }
        handle := t2
        wasCached := false }

/-- The external collaborators consumed by _addToTemplateMap, abstracted as
oracles (spec section 6): the engine registry, the passthrough gate, the
full-template classifier, the dependency graph relevance queries, and the
per-handle relevance query isFileRelevantToThisTemplate (keyed here by the
handle input path). -/
structure BuildEnv where
  hasEngine : String → Bool
  isFullTemplateFile : List String → Option String → Bool
  isPassthroughCopyFile : List String → String → Bool
  relevantToDeletionsOf : String → List String
  isFileRelevantToThisTemplate : String → String → Bool → Bool

/-- _isIncrementalFileAPassthroughCopy (source lines 141 to 148): false
when incrementalFile is falsy, otherwise the passthrough gate is asked
about the incremental file against the full path collection. -/
def TemplateWriter.isIncrementalFileAPassthroughCopy (env : BuildEnv)
    (w : TemplateWriter) (paths : List String) : Bool :=
  if jsTruthy w.incrementalFile then
    env.isPassthroughCopyFile paths (w.incrementalFile.getD "")
  else
    false

/-- Observable events of one _addToTemplateMap run, in program order:
the awaited pre-registration of the incremental template, the dependency
graph commit that follows it, and per path of the main loop a classify
event plus a mapAdd event when a BuildEntry is registered. -/
inductive BuildEvent where
  | preRegisterAdd (path : String)
  | depGraphCommit
  | classify (path : String)
  | mapAdd (path : String)
deriving DecidableEq, Repr

/-- Result of the per-path handle update of the main loop body (source
lines 245 to 301): the updated writer (the skipped counter may grow) and
the updated handle. -/
structure LoopUpdateResult where
  writer : TemplateWriter
  handle : TemplateHandle
deriving DecidableEq, Repr

/-- The handle update of the main loop body of _addToTemplateMap (source
lines 245 to 301), applied after _createTemplate. Non-incremental branch:
render-override bookkeeping for the no-initial-render mode, full cache
reset for pre-existing handles. Incremental branch: deletion relevance is
read off the relevantToDeletions set with the leading dot-slash stripped,
the render engine is materialized for fresh handles, then either the
data and render caches are cleared (relevant) or only the data cache is
cleared, the entry is marked dry-run-via-incremental and the skipped
counter is incremented (not relevant). -/
def loopHandleUpdate (env : BuildEnv) (isFullT : Bool) (rel : List String)
    (w : TemplateWriter) (tmpl : TemplateHandle) (wasCached : Bool) : LoopUpdateResult :=
  if !(jsTruthy w.incrementalFile) then
    let t1 :=
      if !w.isRunInitialBuild then
        (if wasCached then tmpl.setRenderableOverrideM none
         else tmpl.setRenderableOverrideM (some false))
      else tmpl
    let t2 := if wasCached then t1.resetCachesAll else t1
    { writer := w, handle := t2 }
  else
    let isRelDel := rel.contains (stripLeadingDotSlash tmpl.inputPath)
    let t1 :=
      if !wasCached && !tmpl.hasTemplateRenderInstance then
        { tmpl with hasTemplateRenderInstance := true }
      else tmpl
    if isRelDel ||
        env.isFileRelevantToThisTemplate t1.inputPath (w.incrementalFile.getD "") isFullT then
      let t2 := t1.resetCachesDataRender
      let t3 := if !w.isRunInitialBuild then t2.setRenderableOverrideM none else t2
      { writer := w, handle := t3 }
    else
      let t2 := t1.resetCachesDataOnly
      let t3 := if !w.isRunInitialBuild then t2.setRenderableOverrideM (some false) else t2
      let t4 := t3.setDryRunViaIncrementalM
      { writer := { w with skippedCount := w.skippedCount + 1 }, handle := t4 }

/-- Accumulator of the main classification loop: the evolving writer, the
BuildEntry registrations so far (templateMap.add calls, by input path, in
order), and the event trace. -/
structure AddAcc where
  writer : TemplateWriter
  adds : List String
  trace : List BuildEvent
deriving DecidableEq, Repr

/-- One iteration of the main loop of _addToTemplateMap (source lines 228
to 306): skip paths without an engine; count and skip every path when the
incremental file is a passthrough copy; skip the already pre-registered
incremental path; otherwise create or fetch the handle, apply the per-path
update, write the handle back, and register the BuildEntry. -/
def addStep (env : BuildEnv) (isFullT isPassthru : Bool) (rel : List String)
    (acc : AddAcc) (path : String) : AddAcc :=
  let acc0 := { acc with trace := acc.trace ++ [BuildEvent.classify path] }
  if !(env.hasEngine path) then acc0
  else if isPassthru then
    { acc0 with writer := { acc0.writer with skippedCount := acc0.writer.skippedCount + 1 } }
  else if isFullT && acc0.writer.incrementalFile == some path then acc0
  else
    let c := acc0.writer.createTemplate path
    let u := loopHandleUpdate env isFullT rel c.writer c.handle c.wasCached
    { writer := { u.writer with
                    templatePathCache := cacheStore u.writer.templatePathCache path u.handle }
      adds := acc0.adds ++ [path]
      trace := acc0.trace ++ [BuildEvent.mapAdd path] }

/-- Result of the pre-registration phase (source lines 203 to 226). -/
structure PreResult where
  acc : AddAcc
  relevantToDeletions : List String
deriving DecidableEq, Repr

/-- The pre-registration phase of _addToTemplateMap (source lines 203 to
226): only when the incremental file is truthy and classified as a full
template, its handle is created or fetched, fully cache-reset if cached,
render-override reset when suppression is active, written back, added to
the template map (and awaited), the deletion-relevant set is computed from
its input path, and the dependency graph contribution is committed. -/
def preRegister (env : BuildEnv) (w : TemplateWriter) (isFullT : Bool) : PreResult :=
  if isFullT && jsTruthy w.incrementalFile then
    let f := w.incrementalFile.getD ""
    let c := w.createTemplate f
    let t1 := if c.wasCached then c.handle.resetCachesAll else c.handle
    let t2 := if !c.writer.isRunInitialBuild then t1.setRenderableOverrideM none else t1
    let w2 := { c.writer with templatePathCache := cacheStore c.writer.templatePathCache f t2 }
    { acc := { writer := w2
               adds := [f]
               trace := [BuildEvent.preRegisterAdd f, BuildEvent.depGraphCommit] }
      relevantToDeletions := env.relevantToDeletionsOf t2.inputPath }
  else
    { acc := { writer := w, adds := [], trace := [] }, relevantToDeletions := [] }

/-- Result of one _addToTemplateMap run. -/
structure AddResult where
  writer : TemplateWriter
  adds : List String
  trace : List BuildEvent
deriving DecidableEq, Repr

/-- _addToTemplateMap (source lines 192 to 309): compute the two
incremental classifications, run the pre-registration phase, then fold the
main loop over the full path collection. -/
def TemplateWriter.addToTemplateMap (env : BuildEnv) (w : TemplateWriter)
    (paths : List String) : AddResult :=
  let isFullT := env.isFullTemplateFile paths w.incrementalFile
  let isPassthru := w.isIncrementalFileAPassthroughCopy env paths
  let pre := preRegister env w isFullT
  let acc := paths.foldl (addStep env isFullT isPassthru pre.relevantToDeletions) pre.acc
  { writer := acc.writer, adds := acc.adds, trace := acc.trace }

/-
Generation scheduler (generateTemplates, source lines 344 to 387).

After the awaited _createTemplateMap, the remainder of generateTemplates
is one synchronous block: the first loop starts a generation per map entry
and attaches a catch callback; the second loop iterates
usedTemplateContentTooEarlyMap; then the promise array is returned. Per
the ECMAScript job model, promise reaction callbacks (the catch handlers)
are jobs that run only once the synchronous execution stack is empty, and
the block contains no await between the two loops, so no settlement
callback can run before the function returns. The machine below encodes
exactly that: sync steps while the program counter has not reached done,
and settlement deliveries (the catch callbacks) only afterwards. The
schedule argument chooses the settlement order, which the spec leaves
arbitrary within a wave.
-/

/-- The outcome of one generateMapEntry call for an entry: rendering is an
external subsystem (spec section 1), so each attempt outcome is an oracle
datum. pages carries the produced outputs and the write-count delta added
by _generateTemplate on fulfillment (source lines 325 to 332). -/
inductive GenResult where
  | pages (outputs : List String) (writes : Nat)
  | prematureError
  | otherError (msg : String)
deriving DecidableEq, Repr

/-- A template map entry as seen by generateTemplates: its input and
output paths and the oracle outcomes of a first and a second generation
attempt on it. -/
structure MapEntry where
  inputPath : String
  outputPath : String
  gen1 : GenResult
  gen2 : GenResult
deriving DecidableEq, Repr

/-- The EleventyTemplateError built by the catch callbacks (source lines
362 to 367 and 375 to 382): its message carries the entry output and input
paths and whether it came from the second pass. -/
structure ETemplateError where
  secondPass : Bool
  outputPath : String
  inputPath : String
deriving DecidableEq, Repr

/-- State of one promise in the returned promises array. A swallowed
first-wave premature failure fulfills with undefined, modelled as
fulfilled none. -/
inductive PromiseState where
  | pending
  | fulfilled (v : Option (List String))
  | rejected (e : ETemplateError)
deriving DecidableEq, Repr

/-- One element of the promises array: the entry it was created for, the
attempt number (1 for the first loop, 2 for the retry loop), and the
promise state. -/
structure Slot where
  entry : MapEntry
  attempt : Nat
  state : PromiseState
deriving DecidableEq, Repr

/-- Program counter of the synchronous tail of generateTemplates. -/
inductive GTPc where
  | loop1 (remaining : List MapEntry)
  | loop2
  | done
deriving DecidableEq, Repr

/-- Machine state: program counter, the live
usedTemplateContentTooEarlyMap array with the index of the second loop
iterator, the promises array, and the writeCount accumulation performed by
the then callbacks of _generateTemplate (started from zero here; the
caller adds it to the writer counter). -/
structure GTState where
  pc : GTPc
  used : List MapEntry
  loop2Idx : Nat
  slots : List Slot
  writeCount : Nat
deriving DecidableEq, Repr

/-- Effect of the first-wave callbacks (source lines 356 to 369) once the
generation settles: fulfillment adds the write count (the then callback)
and keeps the pages; a premature template content error is swallowed, the
entry is pushed onto usedTemplateContentTooEarlyMap, and the promise
fulfills with undefined; any other failure rejects with a wrapped
first-pass EleventyTemplateError carrying the entry paths. Returns the new
promise state, the write-count delta, and whether to push onto the used
list. -/
def runCatch1 (e : MapEntry) : GenResult → PromiseState × Nat × Bool
  | .pages ps w => (.fulfilled (some ps), w, false)
  | .prematureError => (.fulfilled none, 0, true)
  | .otherError _ => (.rejected ⟨false, e.outputPath, e.inputPath⟩, 0, false)

/-- Effect of the second-wave callbacks (source lines 373 to 384): any
failure, premature content access included, rejects with a second-pass
EleventyTemplateError carrying the entry paths. -/
def runCatch2 (e : MapEntry) : GenResult → PromiseState × Nat
  | .pages ps w => (.fulfilled (some ps), w)
  | .prematureError => (.rejected ⟨true, e.outputPath, e.inputPath⟩, 0)
  | .otherError _ => (.rejected ⟨true, e.outputPath, e.inputPath⟩, 0)

/-- Deliver the settlement of the promise at index i, running its
callbacks, if it exists and is still pending; otherwise no effect. -/
def deliver (s : GTState) (i : Nat) : GTState :=
  match s.slots[i]? with
  | none => s
  | some sl =>
    match sl.state with
    | .pending =>
        if sl.attempt = 1 then
          let r := runCatch1 sl.entry sl.entry.gen1
          { s with slots := s.slots.set i { sl with state := r.1 }
                   writeCount := s.writeCount + r.2.1
                   used := if r.2.2 then s.used ++ [sl.entry] else s.used }
        else
          let r := runCatch2 sl.entry sl.entry.gen2
          { s with slots := s.slots.set i { sl with state := r.1 }
                   writeCount := s.writeCount + r.2 }
    | _ => s

/-- One step of the machine. While the synchronous block has not returned
(pc is not done) the unique next synchronous statement runs and the choice
is ignored: the first loop starts one generation per entry (a pending
promise with attempt 1), then the second loop iterates the live used array
(a pending promise with attempt 2 per element), then the block returns.
Once pc is done, the choice selects which pending settlement to deliver,
mirroring the arbitrary completion order of the concurrent generations. -/
def next (s : GTState) (choice : Nat) : GTState :=
  match s.pc with
  | .loop1 (e :: rest) =>
      { s with pc := .loop1 rest, slots := s.slots ++ [⟨e, 1, .pending⟩] }
  | .loop1 [] => { s with pc := .loop2 }
  | .loop2 =>
      match s.used[s.loop2Idx]? with
      | some e =>
          { s with slots := s.slots ++ [⟨e, 2, .pending⟩], loop2Idx := s.loop2Idx + 1 }
      | none => { s with pc := .done }
  | .done => deliver s choice

/-- Initial state of the synchronous tail of generateTemplates for a given
template map. -/
def initGT (entries : List MapEntry) : GTState :=
  { pc := .loop1 entries, used := [], loop2Idx := 0, slots := [], writeCount := 0 }

/-- Run the machine under a schedule. -/
def runGT (entries : List MapEntry) (sched : List Nat) : GTState :=
  sched.foldl next (initGT entries)

/-- Whether a slot promise has rejected. -/
def slotRejected (sl : Slot) : Bool :=
  match sl.state with
  | .rejected _ => true
  | _ => false

/-- Whether a slot promise is still pending. -/
def slotPending (sl : Slot) : Bool := sl.state == PromiseState.pending

/-- Promise.all over the returned promises array rejects as soon as any
component promise rejects (write, source lines 396 to 400, and getJSON,
source lines 405 to 418, both aggregate with Promise.all). -/
def promiseAllRejected (slots : List Slot) : Bool := slots.any slotRejected

/-- The fulfillment value of the Promise.all aggregate: available exactly
when every component promise has fulfilled. -/
def fulfilledValues : List Slot → Option (List (Option (List String)))
  | [] => some []
  | sl :: rest =>
    match sl.state with
    | .fulfilled v => (fulfilledValues rest).map (fun vs => v :: vs)
    | _ => none

/-- The write-count contribution a settled slot accounts for: the then
callback of _generateTemplate adds the template write count exactly when
the generation fulfilled with pages. -/
def slotWrites (sl : Slot) : Nat :=
  match sl.state with
  | .fulfilled (some _) =>
      (match (if sl.attempt = 1 then sl.entry.gen1 else sl.entry.gen2) with
       | .pages _ w => w
       | _ => 0)
  | _ => 0

/-- write (source lines 389 to 401) and getJSON (405 to 418) both feed the
promises of generateTemplates into Promise.all; the writer write counter
accumulates the machine contribution. writeRun composes classification and
generation: the entry for each registered BuildEntry comes from an oracle,
since output paths and render outcomes are produced by external
subsystems. -/
def TemplateWriter.writeRun (env : BuildEnv) (mk : String → MapEntry)
    (w : TemplateWriter) (paths : List String) (sched : List Nat) : TemplateWriter :=
  let r := w.addToTemplateMap env paths
  let g := runGT (r.adds.map mk) sched
  { r.writer with writeCount := r.writer.writeCount + g.writeCount }

/-- Modelled from the spec: the build driver (Eleventy.js, not under src/)
starts each fresh non-incremental run by explicitly resetting the counters
(restart) before write. -/
def TemplateWriter.freshRun (env : BuildEnv) (mk : String → MapEntry)
    (w : TemplateWriter) (paths : List String) (sched : List Nat) : TemplateWriter :=
  TemplateWriter.writeRun env mk w.restart paths sched

/-
Helper lemmas.
-/

theorem foldlInvariant {σ α : Type} (P : σ → Prop) (f : σ → α → σ)
    (hstep : ∀ s a, P s → P (f s a)) :
    ∀ (l : List α) (s : σ), P s → P (l.foldl f s) := by
  intro l
  induction l with
  | nil => intro s hs; simpa using hs
  | cons a t ih =>
      intro s hs
      simpa using ih (f s a) (hstep s a hs)

theorem getElemSomeMem {α : Type} :
    ∀ (l : List α) (i : Nat) (x : α), l[i]? = some x → x ∈ l := by
  intro l
  induction l with
  | nil => intro i x h; simp at h
  | cons a t ih =>
      intro i x h
      cases i with
      | zero =>
          simp at h
          simp [h]
      | succ n =>
          simp at h
          exact List.mem_cons_of_mem a (ih n x h)

theorem listAllSet {α : Type} (p : α → Bool) :
    ∀ (l : List α) (i : Nat) (x : α),
      l.all p = true → p x = true → (l.set i x).all p = true := by
  intro l
  induction l with
  | nil => intro i x h _; simp only [List.set_nil]; exact h
  | cons a t ih =>
      intro i x h hx
      cases i with
      | zero => simp_all
      | succ n =>
          simp only [List.set_cons_succ, List.all_cons, Bool.and_eq_true] at h ⊢
          exact ⟨h.1, ih n x h.2 hx⟩

theorem listMapSet {α β : Type} (f : α → β) :
    ∀ (l : List α) (i : Nat) (x y : α),
      l[i]? = some x → f y = f x → (l.set i y).map f = l.map f := by
  intro l
  induction l with
  | nil => intro i x y h _; simp at h
  | cons a t ih =>
      intro i x y h hf
      cases i with
      | zero =>
          simp at h
          simp [hf, h]
      | succ n =>
          simp at h
          simp [ih n x y h hf]

theorem listSumMapSet {α : Type} (f : α → Nat) :
    ∀ (l : List α) (i : Nat) (x y : α),
      l[i]? = some x →
      ((l.set i y).map f).sum + f x = (l.map f).sum + f y := by
  intro l
  induction l with
  | nil => intro i x y h; simp at h
  | cons a t ih =>
      intro i x y h
      cases i with
      | zero =>
          simp at h
          subst h
          simp [Nat.add_comm, Nat.add_left_comm]
      | succ n =>
          simp at h
          have := ih n x y h
          simp only [List.set_cons_succ, List.map_cons, List.sum_cons]
          omega

/-- The entries the synchronous block still has to start, as a function of
the program counter. -/
def pcRemaining : GTPc → List MapEntry
  | .loop1 rest => rest
  | _ => []

/-- Master invariant of the generateTemplates machine: before the
synchronous block returns, nothing has settled and hence the
usedTemplateContentTooEarlyMap array is empty; every promise in the array
belongs to a first-wave generation attempt; the promises array covers
exactly the map entries in order (plus the entries not yet started); and
the accumulated write count is the sum of the contributions of the settled
fulfilled promises. -/
def GTInv (entries : List MapEntry) (s : GTState) : Prop :=
  (s.pc ≠ GTPc.done → s.used = []) ∧
  s.slots.all (fun sl => sl.attempt == 1) = true ∧
  s.slots.map (fun sl => sl.entry) ++ pcRemaining s.pc = entries ∧
  s.writeCount = (s.slots.map slotWrites).sum

theorem GTInv_init (entries : List MapEntry) : GTInv entries (initGT entries) := by
  refine ⟨fun _ => rfl, rfl, ?_, rfl⟩
  simp [initGT, pcRemaining]

theorem deliver_inv (entries : List MapEntry) (used : List MapEntry) (idx : Nat)
    (slots : List Slot) (wc : Nat) (i : Nat)
    (hatt : slots.all (fun sl => sl.attempt == 1) = true)
    (hcov : slots.map (fun sl => sl.entry) = entries)
    (hwc : wc = (slots.map slotWrites).sum) :
    GTInv entries (deliver ⟨GTPc.done, used, idx, slots, wc⟩ i) := by
  cases hsl : slots[i]? with
  | none =>
      simp only [deliver, hsl]
      exact ⟨fun h2 => absurd rfl h2, hatt, by simpa [pcRemaining] using hcov, hwc⟩
  | some sl =>
      have hmem := getElemSomeMem slots i sl hsl
      have hatt1 : sl.attempt = 1 := by
        have := List.all_eq_true.mp hatt sl hmem
        simpa using this
      have hpend0 : slotWrites sl = 0 ∨ sl.state ≠ PromiseState.pending := by
        cases hq : sl.state with
        | pending => exact Or.inl (by simp [slotWrites, hq])
        | fulfilled v => exact Or.inr (by simp [hq])
        | rejected e => exact Or.inr (by simp [hq])
      cases hst : sl.state with
      | pending =>
          have hpend : slotWrites sl = 0 := by simp [slotWrites, hst]
          simp only [deliver, hsl, hst, hatt1, if_pos]
          cases hg : sl.entry.gen1 with
          | pages ps w =>
              simp only [runCatch1, hg]
              refine ⟨fun h2 => absurd rfl h2, ?_, ?_, ?_⟩
              · exact listAllSet _ slots i ⟨sl.entry, 1, PromiseState.fulfilled (some ps)⟩ hatt rfl
              · simp only [pcRemaining, List.append_nil]
                rw [listMapSet (fun sl => sl.entry) slots i sl
                  ⟨sl.entry, 1, PromiseState.fulfilled (some ps)⟩ hsl (by rfl)]
                exact hcov
              · have hs := listSumMapSet slotWrites slots i sl
                  ⟨sl.entry, 1, PromiseState.fulfilled (some ps)⟩ hsl
                have hv : slotWrites ⟨sl.entry, 1, PromiseState.fulfilled (some ps)⟩ = w := by
                  simp [slotWrites, hg]
                rw [hpend, hv] at hs
                show wc + w =
                  (List.map slotWrites
                    (slots.set i ⟨sl.entry, 1, PromiseState.fulfilled (some ps)⟩)).sum
                omega
          | prematureError =>
              simp only [runCatch1, hg]
              refine ⟨fun h2 => absurd rfl h2, ?_, ?_, ?_⟩
              · exact listAllSet _ slots i ⟨sl.entry, 1, PromiseState.fulfilled none⟩ hatt rfl
              · simp only [pcRemaining, List.append_nil]
                rw [listMapSet (fun sl => sl.entry) slots i sl
                  ⟨sl.entry, 1, PromiseState.fulfilled none⟩ hsl (by rfl)]
                exact hcov
              · have hs := listSumMapSet slotWrites slots i sl
                  ⟨sl.entry, 1, PromiseState.fulfilled none⟩ hsl
                have hv : slotWrites ⟨sl.entry, 1, PromiseState.fulfilled none⟩ = 0 := by
                  simp [slotWrites]
                rw [hpend, hv] at hs
                show wc + 0 =
                  (List.map slotWrites (slots.set i ⟨sl.entry, 1, PromiseState.fulfilled none⟩)).sum
                omega
          | otherError m =>
              simp only [runCatch1, hg]
              refine ⟨fun h2 => absurd rfl h2, ?_, ?_, ?_⟩
              · exact listAllSet _ slots i
                  ⟨sl.entry, 1,
                    PromiseState.rejected ⟨false, sl.entry.outputPath, sl.entry.inputPath⟩⟩ hatt rfl
              · simp only [pcRemaining, List.append_nil]
                rw [listMapSet (fun sl => sl.entry) slots i sl
                  ⟨sl.entry, 1,
                    PromiseState.rejected ⟨false, sl.entry.outputPath, sl.entry.inputPath⟩⟩ hsl (by rfl)]
                exact hcov
              · have hs := listSumMapSet slotWrites slots i sl
                  ⟨sl.entry, 1,
                    PromiseState.rejected ⟨false, sl.entry.outputPath, sl.entry.inputPath⟩⟩ hsl
                have hv : slotWrites
                    ⟨sl.entry, 1,
                      PromiseState.rejected ⟨false, sl.entry.outputPath, sl.entry.inputPath⟩⟩ = 0 := by
                  simp [slotWrites]
                rw [hpend, hv] at hs
                show wc + 0 =
                  (List.map slotWrites
                    (slots.set i
                      ⟨sl.entry, 1,
                        PromiseState.rejected ⟨false, sl.entry.outputPath, sl.entry.inputPath⟩⟩)).sum
                omega
      | fulfilled v =>
          simp only [deliver, hsl, hst]
          exact ⟨fun h2 => absurd rfl h2, hatt, by simpa [pcRemaining] using hcov, hwc⟩
      | rejected e =>
          simp only [deliver, hsl, hst]
          exact ⟨fun h2 => absurd rfl h2, hatt, by simpa [pcRemaining] using hcov, hwc⟩

theorem GTInv_next (entries : List MapEntry) (s : GTState) (choice : Nat)
    (h : GTInv entries s) : GTInv entries (next s choice) := by
  obtain ⟨hused, hatt, hcov, hwc⟩ := h
  obtain ⟨pc, used, idx, slots, wc⟩ := s
  cases pc with
  | loop1 rem =>
      have hu : used = [] := hused (fun hx => by cases hx)
      subst hu
      cases rem with
      | cons e rest =>
          simp only [next]
          refine ⟨fun _ => rfl, ?_, ?_, ?_⟩
          · simp only [List.all_append, hatt, Bool.true_and]
            rfl
          · simp only [pcRemaining] at hcov ⊢
            simpa using hcov
          · simp only [List.map_append, List.sum_append]
            simpa [slotWrites] using hwc
      | nil =>
          simp only [next]
          exact ⟨fun _ => rfl, hatt, by simpa [pcRemaining] using hcov, hwc⟩
  | loop2 =>
      have hu : used = [] := hused (fun hx => by cases hx)
      subst hu
      simp only [next, List.getElem?_nil]
      exact ⟨fun _ => rfl, hatt, by simpa [pcRemaining] using hcov, hwc⟩
  | done =>
      simp only [next]
      exact deliver_inv entries used idx slots wc choice hatt
        (by simpa [pcRemaining] using hcov) hwc

theorem GTInv_run (entries : List MapEntry) (sched : List Nat) :
    GTInv entries (runGT entries sched) :=
  foldlInvariant (GTInv entries) next (GTInv_next entries) sched (initGT entries)
    (GTInv_init entries)

/-- If any promise of the array has rejected, the Promise.all aggregate
can no longer fulfill: its fulfillment value does not exist. -/
theorem fulfilledValuesNoneOfRejected :
    ∀ slots : List Slot, slots.any slotRejected = true → fulfilledValues slots = none := by
  intro slots
  induction slots with
  | nil => intro h; simp at h
  | cons sl rest ih =>
      intro h
      simp only [List.any_cons, Bool.or_eq_true] at h
      cases hst : sl.state with
      | pending => simp [fulfilledValues, hst]
      | rejected e => simp [fulfilledValues, hst]
      | fulfilled v =>
          have hr : rest.any slotRejected = true := by
            rcases h with h | h
            · simp [slotRejected, hst] at h
            · exact h
          simp [fulfilledValues, hst, ih hr]

/-
Concrete inputs used in the evaluations below.
-/

/-- An entry whose first generation attempt fails by accessing another
template content too early, and whose retry would succeed: the situation
the second (retry) wave exists for. -/
def entPrem : MapEntry :=
  ⟨"post.md", "_site/post/index.html", GenResult.prematureError, GenResult.pages ["ok"] 1⟩

/-- An entry that raises a premature-content-access failure on every
attempt: per the spec this must fail the run with a second-pass error. -/
def entPremBoth : MapEntry :=
  ⟨"page.md", "_site/page/index.html", GenResult.prematureError, GenResult.prematureError⟩

/-- An entry whose generation fails for an ordinary (non-premature)
reason. -/
def entFail : MapEntry :=
  ⟨"a.md", "_site/a/index.html", GenResult.otherError "boom", GenResult.otherError "boom"⟩

/-- An entry whose generation succeeds with one output page. -/
def entOk : MapEntry :=
  ⟨"b.md", "_site/b/index.html", GenResult.pages ["<b>"] 1, GenResult.pages ["<b>"] 1⟩

/-- C1. The claim: whenever a first-wave entry fails with a
premature-content-access failure, the second (retry) wave generates that
entry again, and only after every first-wave entry has settled. The code
does not do this: the retry loop of generateTemplates runs inside the same
synchronous block as the first loop (no await between source lines 371 and
373), so it iterates usedTemplateContentTooEarlyMap before any first-wave
promise can settle, when the array is still empty. First conjunct: in
every run under every schedule, every promise in the returned array is a
first-attempt promise — no entry is ever generated a second time. Second
conjunct: evaluation at the failing input, a single entry whose first
attempt raises a premature-content failure and whose retry would succeed:
the run completes with the entry pushed onto the (no longer read) retry
list, one single first-wave attempt fulfilled with undefined, no retry
generation, and no output written. -/
theorem claim1_retry_wave_never_generates (entries : List MapEntry) (sched : List Nat) :
    ((runGT entries sched).slots.all (fun sl => sl.attempt == 1)) = true ∧
    runGT [entPrem] [0, 0, 0, 0] =
      { pc := GTPc.done
        used := [entPrem]
        loop2Idx := 0
        slots := [⟨entPrem, 1, PromiseState.fulfilled none⟩]
        writeCount := 0 } :=
  ⟨(GTInv_run entries sched).2.1, by decide⟩

/-- C2. The claim: a first-wave premature-content failure is not surfaced
as a run-level error (true); an entry failing again in the second wave
fails the run with a TemplateGenerationError referencing the second-wave
attempt (the spec scenario: an entry raising premature-content failures in
both waves fails the run); any non-premature first-wave failure is wrapped
with the entry input and output paths (true). Evaluation at the failing
input — a single entry whose every generation attempt raises a
premature-content failure: the run never attempts the entry a second time
(one attempt-1 slot), nothing rejects, and the aggregate fulfills with the
swallowed undefined value, so no TemplateGenerationError referencing a
second-wave attempt ever surfaces and the output is silently missing.
The last conjunct checks the true part: an ordinary first-wave failure is
wrapped into a first-pass error carrying the entry output and input
paths. -/
theorem claim2_both_wave_premature_failure_swallowed :
    (runGT [entPremBoth] [0, 0, 0, 0]).slots
        = [⟨entPremBoth, 1, PromiseState.fulfilled none⟩] ∧
    promiseAllRejected (runGT [entPremBoth] [0, 0, 0, 0]).slots = false ∧
    fulfilledValues (runGT [entPremBoth] [0, 0, 0, 0]).slots = some [none] ∧
    (runGT [entFail] [0, 0, 0, 0]).slots
        = [⟨entFail, 1, PromiseState.rejected ⟨false, "_site/a/index.html", "a.md"⟩⟩] := by
  decide

/-- C3 counterexample. The claim says the aggregate rejection is produced
only after all entries have settled and that outputs of successful entries
are still returned to the caller. Concrete run with a failing entry and a
succeeding entry, scheduling the failure first: (1) after the failure
settles the Promise.all aggregate is already rejected while the succeeding
entry is still pending — the rejection is not withheld until all entries
settle; (2) at the end of the run the aggregate is still a rejection and
has no fulfillment value, even though the sibling entry fulfilled with its
output and its write was counted — the successful output is produced but
not returned through the aggregate. -/
theorem claim3_counterexample :
    promiseAllRejected (runGT [entFail, entOk] [0, 0, 0, 0, 0]).slots = true ∧
    slotPending
        ((runGT [entFail, entOk] [0, 0, 0, 0, 0]).slots.getD 1
          ⟨entOk, 1, PromiseState.pending⟩) = true ∧
    promiseAllRejected (runGT [entFail, entOk] [0, 0, 0, 0, 0, 1]).slots = true ∧
    fulfilledValues (runGT [entFail, entOk] [0, 0, 0, 0, 0, 1]).slots = none ∧
    ((runGT [entFail, entOk] [0, 0, 0, 0, 0, 1]).slots.getD 1
        ⟨entOk, 1, PromiseState.pending⟩).state = PromiseState.fulfilled (some ["<b>"]) ∧
    (runGT [entFail, entOk] [0, 0, 0, 0, 0, 1]).writeCount = 1 := by
  decide

/-- C3 amended: in every run, once the synchronous block has returned the
promises array covers every map entry in order (a failing entry never
cancels a sibling); the accumulated write count is exactly the sum of the
contributions of the settled fulfilled promises (successful writes are
kept regardless of sibling failures); and once any component has rejected
the aggregate has no fulfillment value — the rejection, available as soon
as the first failure settles, carries no outputs. -/
theorem claim3_amended_partial_results (entries : List MapEntry) (sched : List Nat) :
    ((runGT entries sched).pc = GTPc.done →
      (runGT entries sched).slots.map (fun sl => sl.entry) = entries) ∧
    (runGT entries sched).writeCount = ((runGT entries sched).slots.map slotWrites).sum ∧
    (promiseAllRejected (runGT entries sched).slots = true →
      fulfilledValues (runGT entries sched).slots = none) := by
  obtain ⟨hused, hatt, hcov, hwc⟩ := GTInv_run entries sched
  refine ⟨fun hpc => ?_, hwc, fun hrej => fulfilledValuesNoneOfRejected _ hrej⟩
  rw [hpc] at hcov
  simpa [pcRemaining] using hcov

/-- Witness for the amended C3 theorem at a concrete run: the failing
sibling does not cancel the succeeding one, the write count matches, and
the rejected aggregate has no fulfillment value. -/
theorem claim3_amended_partial_results_witness :
    (runGT [entFail, entOk] [0, 0, 0, 0, 0, 1]).slots.map (fun sl => sl.entry)
        = [entFail, entOk] ∧
    (runGT [entFail, entOk] [0, 0, 0, 0, 0, 1]).writeCount
        = ((runGT [entFail, entOk] [0, 0, 0, 0, 0, 1]).slots.map slotWrites).sum ∧
    fulfilledValues (runGT [entFail, entOk] [0, 0, 0, 0, 0, 1]).slots = none := by
  obtain ⟨h1, h2, h3⟩ := claim3_amended_partial_results [entFail, entOk] [0, 0, 0, 0, 0, 1]
  exact ⟨h1 (by decide), h2, h3 (by decide)⟩

/-
Template cache lemmas (claim C4 and supporting facts).
-/

theorem cacheLookup_store :
    ∀ (l : List (String × TemplateHandle)) (p q : String) (t : TemplateHandle),
      cacheLookup (cacheStore l p t) q = if p = q then some t else cacheLookup l q := by
  intro l
  induction l with
  | nil =>
      intro p q t
      by_cases h : p = q <;> simp [cacheStore, cacheLookup, h]
  | cons kv rest ih =>
      intro p q t
      obtain ⟨k, v⟩ := kv
      by_cases hkp : k = p
      · subst hkp
        by_cases hkq : k = q <;> simp [cacheStore, cacheLookup, hkq]
      · by_cases hkq : k = q
        · subst hkq
          have hpq : p ≠ k := fun hx => hkp hx.symm
          simp [cacheStore, cacheLookup, hkp, hpq]
        · simp [cacheStore, cacheLookup, hkp, hkq, ih p q t]

/-- After _createTemplate, the cache holds the returned handle under the
exact path string. -/
theorem createTemplate_lookup_self (w : TemplateWriter) (path : String) :
    cacheLookup (w.createTemplate path).writer.templatePathCache path
      = some (w.createTemplate path).handle := by
  cases h : cacheLookup w.templatePathCache path <;>
    simp [TemplateWriter.createTemplate, h, cacheLookup_store]

/-- _createTemplate touches no cache key other than the exact string it
was called with. -/
theorem createTemplate_lookup_other (w : TemplateWriter) (path q : String) (hne : path ≠ q) :
    cacheLookup (w.createTemplate path).writer.templatePathCache q
      = cacheLookup w.templatePathCache q := by
  cases h : cacheLookup w.templatePathCache path <;>
    simp [TemplateWriter.createTemplate, h, cacheLookup_store, hne]

/-- _createTemplate on a cache miss reports wasCached false and returns a
handle bearing the current allocation counter. -/
theorem createTemplate_fresh_id (w : TemplateWriter) (path : String)
    (h : cacheLookup w.templatePathCache path = none) :
    (w.createTemplate path).wasCached = false ∧
    (w.createTemplate path).handle.instanceId = w.nextTemplateId := by
  simp [TemplateWriter.createTemplate, h, freshHandle]

/-- Under the allocation-counter bound, the handle returned by
_createTemplate always has an identifier below the resulting counter. -/
theorem createTemplate_id_bound (w : TemplateWriter) (path : String)
    (hwf : ∀ p t, cacheLookup w.templatePathCache p = some t →
      t.instanceId < w.nextTemplateId) :
    (w.createTemplate path).handle.instanceId
      < (w.createTemplate path).writer.nextTemplateId := by
  cases h : cacheLookup w.templatePathCache path with
  | some t0 =>
      have hb := hwf path t0 h
      simp only [TemplateWriter.createTemplate, h]
      exact hb
  | none =>
      simp [TemplateWriter.createTemplate, h, freshHandle]

/-- A repeated _createTemplate call with the identical string finds the
stored handle: it reports wasCached true, returns the same instance
identifier, and allocates nothing. -/
theorem createTemplate_again (w : TemplateWriter) (path : String) :
    ((w.createTemplate path).writer.createTemplate path).wasCached = true ∧
    ((w.createTemplate path).writer.createTemplate path).handle.instanceId
        = (w.createTemplate path).handle.instanceId ∧
    ((w.createTemplate path).writer.createTemplate path).writer.nextTemplateId
        = (w.createTemplate path).writer.nextTemplateId ∧
    (∀ q, path ≠ q →
      cacheLookup ((w.createTemplate path).writer.createTemplate
          path).writer.templatePathCache q
        = cacheLookup (w.createTemplate path).writer.templatePathCache q) := by
  have h := createTemplate_lookup_self w path
  generalize hg : w.createTemplate path = c1 at h ⊢
  refine ⟨?_, ?_, ?_, ?_⟩
  · simp [TemplateWriter.createTemplate, h]
  · simp [TemplateWriter.createTemplate, h]
  · simp [TemplateWriter.createTemplate, h]
  · intro q hne
    simp [TemplateWriter.createTemplate, h, cacheLookup_store, hne]

/-- The concrete writer all concrete evaluations start from: the state of
a freshly constructed TemplateWriter. -/
def w0 : TemplateWriter := {}

/-- C4 counterexample. The two strings differ only by a redundant leading
dot-slash, so they are path-equal after normalization; two consecutive
calls with the identical string do return the same handle instance, the
second call reporting it as pre-existing; but the third call with the
normalized-equal different string does not return that handle — the Map
_templatePathCache is consulted with the exact string (source line 151)
and no normalization is applied, so a fresh handle is allocated. -/
theorem claim4_counterexample :
    stripLeadingDotSlash "./a.md" = stripLeadingDotSlash "a.md" ∧
    ((w0.createTemplate "a.md").writer.createTemplate "a.md").handle.instanceId
        = (w0.createTemplate "a.md").handle.instanceId ∧
    ((w0.createTemplate "a.md").writer.createTemplate "a.md").wasCached = true ∧
    ¬((((w0.createTemplate "a.md").writer.createTemplate "a.md").writer.createTemplate
          "./a.md").handle.instanceId
        = (w0.createTemplate "a.md").handle.instanceId) := by
  decide

/-- C4 amended: two consecutive _createTemplate calls with the same string
return the same handle instance, the second with wasCached true; a third
call with any different string that is not yet a cache key — including one
that is path-equal after normalization — does not return that handle: it
allocates and returns a new instance, because the cache is keyed by the
exact string. Stated for any writer whose cached instance identifiers are
bounded by the allocation counter (true of every reachable writer). -/
theorem claim4_amended_cache_identity (w : TemplateWriter) (path path2 : String)
    (hne : path ≠ path2)
    (habs : cacheLookup w.templatePathCache path2 = none)
    (hwf : ∀ p t, cacheLookup w.templatePathCache p = some t →
      t.instanceId < w.nextTemplateId) :
    ((w.createTemplate path).writer.createTemplate path).handle.instanceId
        = (w.createTemplate path).handle.instanceId ∧
    ((w.createTemplate path).writer.createTemplate path).wasCached = true ∧
    (((w.createTemplate path).writer.createTemplate path).writer.createTemplate
        path2).wasCached = false ∧
    ¬((((w.createTemplate path).writer.createTemplate path).writer.createTemplate
          path2).handle.instanceId
        = (w.createTemplate path).handle.instanceId) := by
  obtain ⟨ha1, ha2, ha3, ha4⟩ := createTemplate_again w path
  have habs1 : cacheLookup (w.createTemplate path).writer.templatePathCache path2 = none := by
    rw [createTemplate_lookup_other w path path2 hne]
    exact habs
  have habs2 : cacheLookup ((w.createTemplate path).writer.createTemplate
      path).writer.templatePathCache path2 = none := by
    rw [ha4 path2 hne]
    exact habs1
  obtain ⟨hf1, hf2⟩ := createTemplate_fresh_id _ path2 habs2
  have hlt := createTemplate_id_bound w path hwf
  refine ⟨ha2, ha1, hf1, ?_⟩
  rw [hf2, ha3]
  omega

/-- Witness for the amended C4 theorem at the concrete fresh writer and
the dot-slash pair of strings from the counterexample. -/
theorem claim4_amended_cache_identity_witness :
    ((w0.createTemplate "a.md").writer.createTemplate "a.md").handle.instanceId
        = (w0.createTemplate "a.md").handle.instanceId ∧
    ((w0.createTemplate "a.md").writer.createTemplate "a.md").wasCached = true ∧
    (((w0.createTemplate "a.md").writer.createTemplate "a.md").writer.createTemplate
        "./a.md").wasCached = false ∧
    ¬((((w0.createTemplate "a.md").writer.createTemplate "a.md").writer.createTemplate
          "./a.md").handle.instanceId
        = (w0.createTemplate "a.md").handle.instanceId) :=
  claim4_amended_cache_identity w0 "a.md" "./a.md" (by decide) (by decide)
    (fun p t h => by simp [w0, cacheLookup] at h)

/-
Classification loop lemmas (claims C5 to C10).
-/

/-- _createTemplate never touches the run flags or the counters. -/
theorem createTemplate_preserves (w : TemplateWriter) (path : String) :
    (w.createTemplate path).writer.incrementalFile = w.incrementalFile ∧
    (w.createTemplate path).writer.skippedCount = w.skippedCount ∧
    (w.createTemplate path).writer.writeCount = w.writeCount ∧
    (w.createTemplate path).writer.isRunInitialBuild = w.isRunInitialBuild := by
  cases h : cacheLookup w.templatePathCache path <;>
    simp [TemplateWriter.createTemplate, h]

/-- Outside an incremental run the per-path handle update leaves the
writer untouched (in particular it never counts a skip). -/
theorem loopHandleUpdate_nonincremental (env : BuildEnv) (isFullT : Bool)
    (rel : List String) (w : TemplateWriter) (tmpl : TemplateHandle) (wasCached : Bool)
    (h : jsTruthy w.incrementalFile = false) :
    (loopHandleUpdate env isFullT rel w tmpl wasCached).writer = w := by
  simp [loopHandleUpdate, h]

/-- The writer coming out of the per-path handle update is either
unchanged or has exactly one more skip counted. -/
theorem loopHandleUpdate_writer (env : BuildEnv) (isFullT : Bool)
    (rel : List String) (w : TemplateWriter) (tmpl : TemplateHandle) (wasCached : Bool) :
    (loopHandleUpdate env isFullT rel w tmpl wasCached).writer = w ∨
    (loopHandleUpdate env isFullT rel w tmpl wasCached).writer
      = { w with skippedCount := w.skippedCount + 1 } := by
  by_cases h1 : jsTruthy w.incrementalFile
  · by_cases hmat : (!wasCached && !tmpl.hasTemplateRenderInstance) = true
    · by_cases h2 : (stripLeadingDotSlash tmpl.inputPath ∈ rel ∨
          env.isFileRelevantToThisTemplate tmpl.inputPath
              (w.incrementalFile.getD "") isFullT = true)
      · exact Or.inl (by simp [loopHandleUpdate, h1, hmat, h2])
      · exact Or.inr (by simp [loopHandleUpdate, h1, hmat, h2])
    · by_cases h2 : (stripLeadingDotSlash tmpl.inputPath ∈ rel ∨
          env.isFileRelevantToThisTemplate tmpl.inputPath
              (w.incrementalFile.getD "") isFullT = true)
      · exact Or.inl (by simp [loopHandleUpdate, h1, hmat, h2])
      · exact Or.inr (by simp [loopHandleUpdate, h1, hmat, h2])
  · exact Or.inl (by simp [loopHandleUpdate, h1])

/-- The per-path handle update can only bump the skipped counter; every
other writer field is preserved. -/
theorem loopHandleUpdate_preserves (env : BuildEnv) (isFullT : Bool)
    (rel : List String) (w : TemplateWriter) (tmpl : TemplateHandle) (wasCached : Bool) :
    ((loopHandleUpdate env isFullT rel w tmpl wasCached).writer.skippedCount = w.skippedCount ∨
      (loopHandleUpdate env isFullT rel w tmpl wasCached).writer.skippedCount
        = w.skippedCount + 1) ∧
    (loopHandleUpdate env isFullT rel w tmpl wasCached).writer.writeCount = w.writeCount ∧
    (loopHandleUpdate env isFullT rel w tmpl wasCached).writer.incrementalFile
        = w.incrementalFile ∧
    (loopHandleUpdate env isFullT rel w tmpl wasCached).writer.isRunInitialBuild
        = w.isRunInitialBuild ∧
    (loopHandleUpdate env isFullT rel w tmpl wasCached).writer.templatePathCache
        = w.templatePathCache := by
  rcases loopHandleUpdate_writer env isFullT rel w tmpl wasCached with h | h
  · rw [h]; exact ⟨Or.inl rfl, rfl, rfl, rfl, rfl⟩
  · rw [h]; exact ⟨Or.inr rfl, rfl, rfl, rfl, rfl⟩

/-- One loop iteration can only grow the skipped counter; the write
counter and the run flags are preserved. -/
theorem addStep_counters (env : BuildEnv) (isFullT isPassthru : Bool)
    (rel : List String) (acc : AddAcc) (p : String) :
    acc.writer.skippedCount ≤ (addStep env isFullT isPassthru rel acc p).writer.skippedCount ∧
    (addStep env isFullT isPassthru rel acc p).writer.writeCount = acc.writer.writeCount ∧
    (addStep env isFullT isPassthru rel acc p).writer.incrementalFile
        = acc.writer.incrementalFile ∧
    (addStep env isFullT isPassthru rel acc p).writer.isRunInitialBuild
        = acc.writer.isRunInitialBuild := by
  by_cases he : env.hasEngine p = true
  · by_cases hp : isPassthru = true
    · refine ⟨?_, ?_, ?_, ?_⟩ <;> simp [addStep, he, hp]
    · by_cases hskip : (isFullT && acc.writer.incrementalFile == some p) = true
      · refine ⟨?_, ?_, ?_, ?_⟩ <;> simp [addStep, he, hp, hskip]
      · obtain ⟨hc1, hc2, hc3, hc4⟩ := createTemplate_preserves acc.writer p
        obtain ⟨hu1, hu2, hu3, hu4, _⟩ := loopHandleUpdate_preserves env isFullT rel
          (acc.writer.createTemplate p).writer (acc.writer.createTemplate p).handle
          (acc.writer.createTemplate p).wasCached
        refine ⟨?_, ?_, ?_, ?_⟩
        · rcases hu1 with h | h <;> simp [addStep, he, hp, hskip, h, hc2]
        · simp [addStep, he, hp, hskip, hu2, hc3]
        · simp [addStep, he, hp, hskip, hu3, hc1]
        · simp [addStep, he, hp, hskip, hu4, hc4]
  · refine ⟨?_, ?_, ?_, ?_⟩ <;> simp [addStep, he]

/-- Folding the loop can only grow the skipped counter; the write counter
and the run flags are preserved. -/
theorem addStep_fold_counters (env : BuildEnv) (isFullT isPassthru : Bool)
    (rel : List String) :
    ∀ (paths : List String) (acc : AddAcc),
      acc.writer.skippedCount
          ≤ (paths.foldl (addStep env isFullT isPassthru rel) acc).writer.skippedCount ∧
      (paths.foldl (addStep env isFullT isPassthru rel) acc).writer.writeCount
          = acc.writer.writeCount ∧
      (paths.foldl (addStep env isFullT isPassthru rel) acc).writer.incrementalFile
          = acc.writer.incrementalFile ∧
      (paths.foldl (addStep env isFullT isPassthru rel) acc).writer.isRunInitialBuild
          = acc.writer.isRunInitialBuild := by
  intro paths
  induction paths with
  | nil => intro acc; exact ⟨Nat.le_refl _, rfl, rfl, rfl⟩
  | cons p rest ih =>
      intro acc
      obtain ⟨h1, h2, h3, h4⟩ := addStep_counters env isFullT isPassthru rel acc p
      obtain ⟨g1, g2, g3, g4⟩ := ih (addStep env isFullT isPassthru rel acc p)
      simp only [List.foldl_cons]
      exact ⟨Nat.le_trans h1 g1, by rw [g2, h2], by rw [g3, h3], by rw [g4, h4]⟩

/-- The pre-registration phase preserves the counters and the run flags. -/
theorem preRegister_preserves (env : BuildEnv) (w : TemplateWriter) (isFullT : Bool) :
    (preRegister env w isFullT).acc.writer.skippedCount = w.skippedCount ∧
    (preRegister env w isFullT).acc.writer.writeCount = w.writeCount ∧
    (preRegister env w isFullT).acc.writer.incrementalFile = w.incrementalFile ∧
    (preRegister env w isFullT).acc.writer.isRunInitialBuild = w.isRunInitialBuild := by
  unfold preRegister
  split
  · obtain ⟨hc1, hc2, hc3, hc4⟩ := createTemplate_preserves w (w.incrementalFile.getD "")
    exact ⟨hc2, hc3, hc1, hc4⟩
  · exact ⟨rfl, rfl, rfl, rfl⟩

/-- _addToTemplateMap never decreases the skipped counter and never
touches the write counter. -/
theorem addToTemplateMap_counters (env : BuildEnv) (w : TemplateWriter)
    (paths : List String) :
    w.skippedCount ≤ (w.addToTemplateMap env paths).writer.skippedCount ∧
    (w.addToTemplateMap env paths).writer.writeCount = w.writeCount := by
  unfold TemplateWriter.addToTemplateMap
  obtain ⟨p1, p2, _, _⟩ := preRegister_preserves env w
    (env.isFullTemplateFile paths w.incrementalFile)
  obtain ⟨f1, f2, _, _⟩ := addStep_fold_counters env
    (env.isFullTemplateFile paths w.incrementalFile)
    (w.isIncrementalFileAPassthroughCopy env paths)
    (preRegister env w (env.isFullTemplateFile paths w.incrementalFile)).relevantToDeletions
    paths
    (preRegister env w (env.isFullTemplateFile paths w.incrementalFile)).acc
  exact ⟨by rw [← p1]; exact f1, by rw [f2, p2]⟩

/-- In a non-incremental state every loop iteration leaves the skipped
counter untouched and keeps the incremental file unset. -/
theorem addStep_fold_nonincremental (env : BuildEnv) (isFullT : Bool) (rel : List String) :
    ∀ (paths : List String) (acc : AddAcc), acc.writer.incrementalFile = none →
      (paths.foldl (addStep env isFullT false rel) acc).writer.skippedCount
          = acc.writer.skippedCount ∧
      (paths.foldl (addStep env isFullT false rel) acc).writer.incrementalFile = none := by
  intro paths
  induction paths with
  | nil => intro acc h; exact ⟨rfl, h⟩
  | cons p rest ih =>
      intro acc h
      have hskip : (isFullT && acc.writer.incrementalFile == some p) = false := by
        simp [h]
      have hc := createTemplate_preserves acc.writer p
      have hinc2 : (acc.writer.createTemplate p).writer.incrementalFile = none := by
        rw [hc.1, h]
      have hlw := loopHandleUpdate_nonincremental env isFullT rel
        (acc.writer.createTemplate p).writer (acc.writer.createTemplate p).handle
        (acc.writer.createTemplate p).wasCached (by rw [hinc2]; rfl)
      have hstep : (addStep env isFullT false rel acc p).writer.skippedCount
            = acc.writer.skippedCount ∧
          (addStep env isFullT false rel acc p).writer.incrementalFile = none := by
        by_cases he : env.hasEngine p = true
        · refine ⟨?_, ?_⟩ <;> simp [addStep, he, hskip, hlw, hc.2.1, hinc2]
        · refine ⟨?_, ?_⟩ <;> simp [addStep, he, h]
      obtain ⟨g1, g2⟩ := ih (addStep env isFullT false rel acc p) hstep.2
      simp only [List.foldl_cons]
      exact ⟨by rw [g1, hstep.1], g2⟩

/-- C10. With no incremental file set, the passthrough classification of
the changed file (source lines 141 to 148) returns false whatever the
path collection, so the passthrough short-circuit branch of the main loop
(source lines 233 to 236) never fires; moreover no branch at all counts a
skip in such a full run, so the skipped counter is unchanged by
_addToTemplateMap. -/
theorem claim10_full_run_no_passthrough_shortcut (env : BuildEnv) (w : TemplateWriter)
    (paths : List String) (h : w.incrementalFile = none) :
    w.isIncrementalFileAPassthroughCopy env paths = false ∧
    (w.addToTemplateMap env paths).writer.skippedCount = w.skippedCount := by
  have hfalse : w.isIncrementalFileAPassthroughCopy env paths = false := by
    simp [TemplateWriter.isIncrementalFileAPassthroughCopy, h, jsTruthy]
  refine ⟨hfalse, ?_⟩
  have hpre : preRegister env w (env.isFullTemplateFile paths w.incrementalFile)
      = ⟨⟨w, [], []⟩, []⟩ := by
    simp [preRegister, h, jsTruthy]
  simp only [TemplateWriter.addToTemplateMap, hfalse, hpre]
  exact (addStep_fold_nonincremental env _ _ paths ⟨w, [], []⟩ h).1

/-- A concrete collaborator environment used by witnesses: the listed
markdown files have a render engine, changed.md is classified as a full
template when it is the incremental file, asset.png is classified as a
passthrough copy, del.md is deletion-relevant, and dep.md reports itself
relevant to changed.md. -/
def envA : BuildEnv :=
  { hasEngine := fun p =>
      ["a.md", "b.md", "dep.md", "changed.md", "del.md", "post.md"].contains p
    isFullTemplateFile := fun _ inc => inc == some "changed.md"
    isPassthroughCopyFile := fun _ f => f == "asset.png"
    relevantToDeletionsOf := fun _ => ["del.md"]
    isFileRelevantToThisTemplate := fun p chg _ => p == "dep.md" && chg == "changed.md" }

/-- Witness for C10 at a concrete full run. -/
theorem claim10_full_run_no_passthrough_shortcut_witness :
    w0.isIncrementalFileAPassthroughCopy envA ["a.md", "asset.png"] = false ∧
    (w0.addToTemplateMap envA ["a.md", "asset.png"]).writer.skippedCount
      = w0.skippedCount :=
  claim10_full_run_no_passthrough_shortcut envA w0 ["a.md", "asset.png"] rfl

/-- When the incremental file is a passthrough copy, every loop iteration
over an engine-backed path counts one skip and does nothing else: no
BuildEntry is registered and the template cache is untouched. -/
theorem addStep_fold_passthru (env : BuildEnv) (isFullT : Bool) (rel : List String) :
    ∀ (paths : List String) (acc : AddAcc),
      (paths.foldl (addStep env isFullT true rel) acc).writer.skippedCount
          = acc.writer.skippedCount + (paths.filter env.hasEngine).length ∧
      (paths.foldl (addStep env isFullT true rel) acc).adds = acc.adds ∧
      (paths.foldl (addStep env isFullT true rel) acc).writer.templatePathCache
          = acc.writer.templatePathCache ∧
      (paths.foldl (addStep env isFullT true rel) acc).writer.writeCount
          = acc.writer.writeCount := by
  intro paths
  induction paths with
  | nil => intro acc; exact ⟨by simp, rfl, rfl, rfl⟩
  | cons p rest ih =>
      intro acc
      by_cases he : env.hasEngine p = true
      · have hs1 : (addStep env isFullT true rel acc p).writer.skippedCount
            = acc.writer.skippedCount + 1 := by simp [addStep, he]
        have hs2 : (addStep env isFullT true rel acc p).adds = acc.adds := by
          simp [addStep, he]
        have hs3 : (addStep env isFullT true rel acc p).writer.templatePathCache
            = acc.writer.templatePathCache := by simp [addStep, he]
        have hs4 : (addStep env isFullT true rel acc p).writer.writeCount
            = acc.writer.writeCount := by simp [addStep, he]
        obtain ⟨g1, g2, g3, g4⟩ := ih (addStep env isFullT true rel acc p)
        simp only [List.foldl_cons, List.filter_cons, he, if_pos]
        refine ⟨?_, ?_, ?_, ?_⟩
        · rw [g1, hs1]; simp only [List.length_cons]; omega
        · rw [g2, hs2]
        · rw [g3, hs3]
        · rw [g4, hs4]
      · have hs1 : (addStep env isFullT true rel acc p).writer.skippedCount
            = acc.writer.skippedCount := by simp [addStep, he]
        have hs2 : (addStep env isFullT true rel acc p).adds = acc.adds := by
          simp [addStep, he]
        have hs3 : (addStep env isFullT true rel acc p).writer.templatePathCache
            = acc.writer.templatePathCache := by simp [addStep, he]
        have hs4 : (addStep env isFullT true rel acc p).writer.writeCount
            = acc.writer.writeCount := by simp [addStep, he]
        obtain ⟨g1, g2, g3, g4⟩ := ih (addStep env isFullT true rel acc p)
        simp only [List.foldl_cons]
        refine ⟨?_, ?_, ?_, ?_⟩
        · rw [g1, hs1]; simp [List.filter_cons, he]
        · rw [g2, hs2]
        · rw [g3, hs3]
        · rw [g4, hs4]

/-- C7. In an incremental run whose changed path the Passthrough Gate
classifies as a raw-copy asset (and which is not a full template, the two
classifications being mutually exclusive alternatives of the
IncrementalContext per the spec data model), every path with a matching
engine is skipped for template purposes: no BuildEntry at all is
registered, the template cache is untouched (no template is created or
regenerated), the write counter is untouched, and the skipped counter
grows by exactly one per engine-backed path. -/
theorem claim7_passthrough_short_circuit (env : BuildEnv) (w : TemplateWriter)
    (paths : List String) (f : String)
    (hf : w.incrementalFile = some f) (hfne : f ≠ "")
    (hpass : env.isPassthroughCopyFile paths f = true)
    (hfull : env.isFullTemplateFile paths w.incrementalFile = false) :
    (w.addToTemplateMap env paths).adds = [] ∧
    (w.addToTemplateMap env paths).writer.skippedCount
        = w.skippedCount + (paths.filter env.hasEngine).length ∧
    (w.addToTemplateMap env paths).writer.templatePathCache = w.templatePathCache ∧
    (w.addToTemplateMap env paths).writer.writeCount = w.writeCount := by
  have htruthy : jsTruthy (some f) = true := by simp [jsTruthy, hfne]
  have hpassthru : w.isIncrementalFileAPassthroughCopy env paths = true := by
    simp [TemplateWriter.isIncrementalFileAPassthroughCopy, hf, htruthy, hpass]
  have hpre : preRegister env w (env.isFullTemplateFile paths w.incrementalFile)
      = ⟨⟨w, [], []⟩, []⟩ := by
    simp [preRegister, hfull]
  obtain ⟨g1, g2, g3, g4⟩ := addStep_fold_passthru env
    (env.isFullTemplateFile paths w.incrementalFile) ([] : List String) paths ⟨w, [], []⟩
  refine ⟨?_, ?_, ?_, ?_⟩ <;>
    simp only [TemplateWriter.addToTemplateMap, hpassthru, hpre] <;>
    first
      | exact g2
      | exact g1
      | exact g3
      | exact g4

/-- The concrete incremental writer whose changed file is the passthrough
asset. -/
def wIncAsset : TemplateWriter := { incrementalFile := some "asset.png" }

/-- Witness for C7 at a concrete incremental run over two engine-backed
paths and the changed asset itself. -/
theorem claim7_passthrough_short_circuit_witness :
    (wIncAsset.addToTemplateMap envA ["a.md", "b.md", "asset.png"]).adds = [] ∧
    (wIncAsset.addToTemplateMap envA ["a.md", "b.md", "asset.png"]).writer.skippedCount
        = wIncAsset.skippedCount
          + (["a.md", "b.md", "asset.png"].filter envA.hasEngine).length ∧
    (wIncAsset.addToTemplateMap envA
        ["a.md", "b.md", "asset.png"]).writer.templatePathCache
      = wIncAsset.templatePathCache ∧
    (wIncAsset.addToTemplateMap envA ["a.md", "b.md", "asset.png"]).writer.writeCount
      = wIncAsset.writeCount :=
  claim7_passthrough_short_circuit envA wIncAsset ["a.md", "b.md", "asset.png"]
    "asset.png" rfl (by decide) (by decide) (by decide)

/-- The pure per-path decision of whether the main loop registers a
BuildEntry for a path: it must have an engine, the passthrough
short-circuit must be off, and it must not be the already pre-registered
incremental full template. -/
def addCond (env : BuildEnv) (isFullT isPassthru : Bool) (inc : Option String)
    (p : String) : Bool :=
  env.hasEngine p && !isPassthru && !(isFullT && inc == some p)

/-- Events the main classification loop can emit. -/
def isLoopEvent : BuildEvent → Bool
  | .classify _ => true
  | .mapAdd _ => true
  | _ => false

theorem addStep_adds_trace (env : BuildEnv) (isFullT isPassthru : Bool)
    (rel : List String) (acc : AddAcc) (p : String) :
    (addStep env isFullT isPassthru rel acc p).adds
        = acc.adds ++ (if addCond env isFullT isPassthru acc.writer.incrementalFile p
                       then [p] else []) ∧
    (∃ extra, (addStep env isFullT isPassthru rel acc p).trace = acc.trace ++ extra ∧
        extra.all isLoopEvent = true) := by
  by_cases he : env.hasEngine p = true
  · by_cases hp : isPassthru = true
    · exact ⟨by simp [addStep, addCond, he, hp],
        ⟨[BuildEvent.classify p], by simp [addStep, he, hp], by simp [isLoopEvent]⟩⟩
    · by_cases hskip : (isFullT && acc.writer.incrementalFile == some p) = true
      · exact ⟨by simp [addStep, addCond, he, hp, hskip],
          ⟨[BuildEvent.classify p], by simp [addStep, he, hp, hskip], by simp [isLoopEvent]⟩⟩
      · exact ⟨by simp [addStep, addCond, he, hp, hskip],
          ⟨[BuildEvent.classify p, BuildEvent.mapAdd p],
            by simp [addStep, he, hp, hskip], by simp [isLoopEvent]⟩⟩
  · exact ⟨by simp [addStep, addCond, he],
      ⟨[BuildEvent.classify p], by simp [addStep, he], by simp [isLoopEvent]⟩⟩

theorem addStep_fold_adds_trace (env : BuildEnv) (isFullT isPassthru : Bool)
    (rel : List String) :
    ∀ (paths : List String) (acc : AddAcc),
      (paths.foldl (addStep env isFullT isPassthru rel) acc).adds
          = acc.adds
            ++ paths.filter (addCond env isFullT isPassthru acc.writer.incrementalFile) ∧
      (∃ extra, (paths.foldl (addStep env isFullT isPassthru rel) acc).trace
          = acc.trace ++ extra ∧ extra.all isLoopEvent = true) := by
  intro paths
  induction paths with
  | nil => intro acc; exact ⟨by simp, ⟨[], by simp, rfl⟩⟩
  | cons p rest ih =>
      intro acc
      obtain ⟨ha, ⟨e1, he1, he1all⟩⟩ := addStep_adds_trace env isFullT isPassthru rel acc p
      obtain ⟨ga, ⟨e2, ge2, ge2all⟩⟩ := ih (addStep env isFullT isPassthru rel acc p)
      have hincp : (addStep env isFullT isPassthru rel acc p).writer.incrementalFile
          = acc.writer.incrementalFile :=
        (addStep_counters env isFullT isPassthru rel acc p).2.2.1
      constructor
      · rw [List.foldl_cons, ga, hincp, ha]
        by_cases hc : addCond env isFullT isPassthru acc.writer.incrementalFile p = true
        · simp [List.filter_cons, hc]
        · simp [List.filter_cons, hc]
      · refine ⟨e1 ++ e2, ?_, ?_⟩
        · rw [List.foldl_cons, ge2, he1, List.append_assoc]
        · simp only [List.all_append, he1all, ge2all, Bool.and_self]

/-- When the incremental file is a truthy full template, the
pre-registration phase registers exactly it, emits the awaited map add
followed by the dependency graph commit, and preserves the incremental
file. -/
theorem preRegister_on (env : BuildEnv) (w : TemplateWriter) (isFullT : Bool) (f : String)
    (hf : w.incrementalFile = some f) (hfne : f ≠ "") (hfull2 : isFullT = true) :
    (preRegister env w isFullT).acc.adds = [f] ∧
    (preRegister env w isFullT).acc.trace
      = [BuildEvent.preRegisterAdd f, BuildEvent.depGraphCommit] ∧
    (preRegister env w isFullT).acc.writer.incrementalFile = some f := by
  have htruthy : jsTruthy (some f) = true := by simp [jsTruthy, hfne]
  subst hfull2
  refine ⟨?_, ?_, ?_⟩ <;>
    simp [preRegister, hf, htruthy, (createTemplate_preserves w f).1]

/-- C6. In an incremental run whose changed path is a truthy full
template: the run trace starts with the awaited pre-registration of that
path immediately followed by the dependency graph commit, and everything
after those two events consists of main-loop classification events only —
so the data cascade of the changed path is awaited and its
dependency-graph contribution committed before any other path is
classified; the changed path is registered into the build set exactly
once (the main loop explicitly skips it); and, the path collection being
duplicate-free, no SourcePath is registered more than once in the run. -/
theorem claim6_changed_template_preregistered_once (env : BuildEnv) (w : TemplateWriter)
    (paths : List String) (f : String)
    (hf : w.incrementalFile = some f) (hfne : f ≠ "")
    (hfull : env.isFullTemplateFile paths w.incrementalFile = true)
    (hnodup : paths.Nodup) :
    (∃ rest, (w.addToTemplateMap env paths).trace
        = BuildEvent.preRegisterAdd f :: BuildEvent.depGraphCommit :: rest ∧
        rest.all isLoopEvent = true) ∧
    (w.addToTemplateMap env paths).adds.count f = 1 ∧
    (∀ p, (w.addToTemplateMap env paths).adds.count p ≤ 1) := by
  obtain ⟨hpa, hpt, hpw⟩ := preRegister_on env w
    (env.isFullTemplateFile paths w.incrementalFile) f hf hfne hfull
  obtain ⟨hadds, ⟨extra, hextra, hextraall⟩⟩ := addStep_fold_adds_trace env
    (env.isFullTemplateFile paths w.incrementalFile)
    (w.isIncrementalFileAPassthroughCopy env paths)
    (preRegister env w (env.isFullTemplateFile paths w.incrementalFile)).relevantToDeletions
    paths
    (preRegister env w (env.isFullTemplateFile paths w.incrementalFile)).acc
  rw [hpw, hpa] at hadds
  rw [hpt] at hextra
  have hcondf : addCond env (env.isFullTemplateFile paths w.incrementalFile)
      (w.isIncrementalFileAPassthroughCopy env paths) (some f) f = false := by
    simp [addCond, hfull]
  have hres : (w.addToTemplateMap env paths).adds
      = [f] ++ paths.filter (addCond env (env.isFullTemplateFile paths w.incrementalFile)
          (w.isIncrementalFileAPassthroughCopy env paths) (some f)) := by
    simp only [TemplateWriter.addToTemplateMap]
    exact hadds
  have hrest : (w.addToTemplateMap env paths).trace
      = [BuildEvent.preRegisterAdd f, BuildEvent.depGraphCommit] ++ extra := by
    simp only [TemplateWriter.addToTemplateMap]
    exact hextra
  have hfnotmem : f ∉ paths.filter (addCond env
      (env.isFullTemplateFile paths w.incrementalFile)
      (w.isIncrementalFileAPassthroughCopy env paths) (some f)) := by
    intro hmem
    have := (List.mem_filter.mp hmem).2
    rw [hcondf] at this
    cases this
  refine ⟨⟨extra, by simpa using hrest, hextraall⟩, ?_, ?_⟩
  · rw [hres]
    rw [List.count_append]
    rw [List.count_eq_zero.mpr hfnotmem]
    simp
  · intro p
    rw [hres, List.count_append]
    by_cases hpf : p = f
    · subst hpf
      rw [List.count_eq_zero.mpr hfnotmem]
      simp
    · have h1 : List.count p [f] = 0 := by
        simp [List.count_singleton]
        exact fun hx => hpf (by simp [hx])
      rw [h1]
      have h2 : (paths.filter (addCond env (env.isFullTemplateFile paths w.incrementalFile)
          (w.isIncrementalFileAPassthroughCopy env paths) (some f))).count p
            ≤ paths.count p :=
        List.Sublist.count_le (List.filter_sublist paths) p
      have h3 := List.nodup_iff_count_le_one.mp hnodup p
      omega

/-- The concrete incremental writer whose changed file is the full
template changed.md. -/
def wIncChanged : TemplateWriter := { incrementalFile := some "changed.md" }

/-- Witness for C6 at a concrete incremental run. -/
theorem claim6_changed_template_preregistered_once_witness :
    (∃ rest, (wIncChanged.addToTemplateMap envA
        ["a.md", "changed.md", "dep.md"]).trace
        = BuildEvent.preRegisterAdd "changed.md" :: BuildEvent.depGraphCommit :: rest ∧
        rest.all isLoopEvent = true) ∧
    (wIncChanged.addToTemplateMap envA
        ["a.md", "changed.md", "dep.md"]).adds.count "changed.md" = 1 ∧
    (∀ p, (wIncChanged.addToTemplateMap envA
        ["a.md", "changed.md", "dep.md"]).adds.count p ≤ 1) :=
  claim6_changed_template_preregistered_once envA wIncChanged
    ["a.md", "changed.md", "dep.md"] "changed.md" rfl (by decide) (by decide) (by decide)

/-- The handle stored in the template path cache for a path after a
classification step (the state observable across runs). -/
def handleAfter (r : AddAcc) (path : String) : TemplateHandle :=
  (cacheLookup r.writer.templatePathCache path).getD (freshHandle 0 path 0)

/-- The handle state a path enters the run with: the cached handle when
one exists, otherwise the fresh handle the constructor would build (whose
sub-caches are all empty). -/
def preHandle (w : TemplateWriter) (path : String) : TemplateHandle :=
  (cacheLookup w.templatePathCache path).getD
    (freshHandle w.nextTemplateId path w.templateDataGeneration)

/-- _createTemplate never touches the sub-caches, the renderable override,
the dry-run-via-incremental marker or the render-engine materialization of
the handle it returns: they agree with the pre-run handle state. -/
theorem createTemplate_handle_caches (w : TemplateWriter) (path : String) :
    (w.createTemplate path).handle.readCache = (preHandle w path).readCache ∧
    (w.createTemplate path).handle.dataCache = (preHandle w path).dataCache ∧
    (w.createTemplate path).handle.renderCache = (preHandle w path).renderCache ∧
    (w.createTemplate path).handle.hasTemplateRenderInstance
        = (preHandle w path).hasTemplateRenderInstance ∧
    (w.createTemplate path).handle.renderableOverride
        = (preHandle w path).renderableOverride ∧
    (w.createTemplate path).handle.isDryRunViaIncremental
        = (preHandle w path).isDryRunViaIncremental := by
  cases h : cacheLookup w.templatePathCache path <;>
    simp [TemplateWriter.createTemplate, preHandle, freshHandle, h]

/-- When every cached handle records its own key as input path (true of
every reachable cache), the handle _createTemplate returns carries the
requested path. -/
theorem createTemplate_handle_inputPath (w : TemplateWriter) (path : String)
    (hwf : ∀ t, cacheLookup w.templatePathCache path = some t → t.inputPath = path) :
    (w.createTemplate path).handle.inputPath = path := by
  cases h : cacheLookup w.templatePathCache path with
  | some t0 =>
      have := hwf t0 h
      simp [TemplateWriter.createTemplate, h, this]
  | none => simp [TemplateWriter.createTemplate, h, freshHandle]

/-- _createTemplate reports wasCached exactly when the cache held the
path. -/
theorem createTemplate_wasCached (w : TemplateWriter) (path : String) :
    (w.createTemplate path).wasCached = (cacheLookup w.templatePathCache path).isSome := by
  cases h : cacheLookup w.templatePathCache path <;>
    simp [TemplateWriter.createTemplate, h]

/-- In the registering branch of the loop body, the cached handle after
the step is exactly the handle produced by the per-path update, the
skipped counter is the one the per-path update produced, and the
BuildEntry is registered. -/
theorem addStep_handleAfter (env : BuildEnv) (isFullT : Bool) (rel : List String)
    (acc : AddAcc) (path : String)
    (heng : env.hasEngine path = true)
    (hskip : (isFullT && acc.writer.incrementalFile == some path) = false) :
    handleAfter (addStep env isFullT false rel acc path) path
      = (loopHandleUpdate env isFullT rel (acc.writer.createTemplate path).writer
          (acc.writer.createTemplate path).handle
          (acc.writer.createTemplate path).wasCached).handle ∧
    (addStep env isFullT false rel acc path).writer.skippedCount
      = (loopHandleUpdate env isFullT rel (acc.writer.createTemplate path).writer
          (acc.writer.createTemplate path).handle
          (acc.writer.createTemplate path).wasCached).writer.skippedCount ∧
    (addStep env isFullT false rel acc path).adds = acc.adds ++ [path] := by
  refine ⟨?_, ?_, ?_⟩ <;>
    simp [addStep, handleAfter, heng, hskip, cacheLookup_store]

/-- The per-path update in an incremental run, relevant case: the data and
render caches are cleared, the read cache is preserved, rendering is
re-enabled when suppression is active, and no skip is counted. -/
theorem loopHandleUpdate_relevant (env : BuildEnv) (isFullT : Bool) (rel : List String)
    (w : TemplateWriter) (tmpl : TemplateHandle) (wasCached : Bool) (f : String)
    (hw : w.incrementalFile = some f) (hfne : f ≠ "")
    (hrel : stripLeadingDotSlash tmpl.inputPath ∈ rel ∨
      env.isFileRelevantToThisTemplate tmpl.inputPath f isFullT = true) :
    (loopHandleUpdate env isFullT rel w tmpl wasCached).writer = w ∧
    (loopHandleUpdate env isFullT rel w tmpl wasCached).handle.dataCache = false ∧
    (loopHandleUpdate env isFullT rel w tmpl wasCached).handle.renderCache = false ∧
    (loopHandleUpdate env isFullT rel w tmpl wasCached).handle.readCache = tmpl.readCache ∧
    (w.isRunInitialBuild = false →
      (loopHandleUpdate env isFullT rel w tmpl wasCached).handle.renderableOverride
        = none) := by
  have htruthy : jsTruthy (some f) = true := by simp [jsTruthy, hfne]
  by_cases hmat : (!wasCached && !tmpl.hasTemplateRenderInstance) = true
  · by_cases hinit : w.isRunInitialBuild = false
    · refine ⟨?_, ?_, ?_, ?_, fun _ => ?_⟩ <;>
        simp [loopHandleUpdate, htruthy, hmat, hw, hrel, hinit,
          TemplateHandle.resetCachesDataRender, TemplateHandle.setRenderableOverrideM]
    · have hinitT : w.isRunInitialBuild = true := by
        cases h : w.isRunInitialBuild
        · exact absurd h hinit
        · rfl
      refine ⟨?_, ?_, ?_, ?_, fun hx => absurd hx hinit⟩ <;>
        simp [loopHandleUpdate, htruthy, hmat, hw, hrel, hinitT,
          TemplateHandle.resetCachesDataRender, TemplateHandle.setRenderableOverrideM]
  · by_cases hinit : w.isRunInitialBuild = false
    · refine ⟨?_, ?_, ?_, ?_, fun _ => ?_⟩ <;>
        simp [loopHandleUpdate, htruthy, hmat, hw, hrel, hinit,
          TemplateHandle.resetCachesDataRender, TemplateHandle.setRenderableOverrideM]
    · have hinitT : w.isRunInitialBuild = true := by
        cases h : w.isRunInitialBuild
        · exact absurd h hinit
        · rfl
      refine ⟨?_, ?_, ?_, ?_, fun hx => absurd hx hinit⟩ <;>
        simp [loopHandleUpdate, htruthy, hmat, hw, hrel, hinitT,
          TemplateHandle.resetCachesDataRender, TemplateHandle.setRenderableOverrideM]

/-- The per-path update in an incremental run, not-relevant case: only the
data cache is cleared (read and render caches preserved), the entry is
marked dry-run-via-incremental, rendering is disabled when suppression is
active, and exactly one skip is counted. -/
theorem loopHandleUpdate_irrelevant (env : BuildEnv) (isFullT : Bool) (rel : List String)
    (w : TemplateWriter) (tmpl : TemplateHandle) (wasCached : Bool) (f : String)
    (hw : w.incrementalFile = some f) (hfne : f ≠ "")
    (hrel : ¬(stripLeadingDotSlash tmpl.inputPath ∈ rel ∨
      env.isFileRelevantToThisTemplate tmpl.inputPath f isFullT = true)) :
    (loopHandleUpdate env isFullT rel w tmpl wasCached).writer
        = { w with skippedCount := w.skippedCount + 1 } ∧
    (loopHandleUpdate env isFullT rel w tmpl wasCached).handle.dataCache = false ∧
    (loopHandleUpdate env isFullT rel w tmpl wasCached).handle.renderCache
        = tmpl.renderCache ∧
    (loopHandleUpdate env isFullT rel w tmpl wasCached).handle.readCache = tmpl.readCache ∧
    (loopHandleUpdate env isFullT rel w tmpl wasCached).handle.isDryRunViaIncremental
        = true ∧
    (w.isRunInitialBuild = false →
      (loopHandleUpdate env isFullT rel w tmpl wasCached).handle.renderableOverride
        = some false) := by
  have htruthy : jsTruthy (some f) = true := by simp [jsTruthy, hfne]
  by_cases hmat : (!wasCached && !tmpl.hasTemplateRenderInstance) = true
  · by_cases hinit : w.isRunInitialBuild = false
    · refine ⟨?_, ?_, ?_, ?_, ?_, fun _ => ?_⟩ <;>
        simp [loopHandleUpdate, htruthy, hmat, hw, hrel, hinit,
          TemplateHandle.resetCachesDataOnly, TemplateHandle.setRenderableOverrideM,
          TemplateHandle.setDryRunViaIncrementalM]
    · have hinitT : w.isRunInitialBuild = true := by
        cases h : w.isRunInitialBuild
        · exact absurd h hinit
        · rfl
      refine ⟨?_, ?_, ?_, ?_, ?_, fun hx => absurd hx hinit⟩ <;>
        simp [loopHandleUpdate, htruthy, hmat, hw, hrel, hinitT,
          TemplateHandle.resetCachesDataOnly, TemplateHandle.setRenderableOverrideM,
          TemplateHandle.setDryRunViaIncrementalM]
  · by_cases hinit : w.isRunInitialBuild = false
    · refine ⟨?_, ?_, ?_, ?_, ?_, fun _ => ?_⟩ <;>
        simp [loopHandleUpdate, htruthy, hmat, hw, hrel, hinit,
          TemplateHandle.resetCachesDataOnly, TemplateHandle.setRenderableOverrideM,
          TemplateHandle.setDryRunViaIncrementalM]
    · have hinitT : w.isRunInitialBuild = true := by
        cases h : w.isRunInitialBuild
        · exact absurd h hinit
        · rfl
      refine ⟨?_, ?_, ?_, ?_, ?_, fun hx => absurd hx hinit⟩ <;>
        simp [loopHandleUpdate, htruthy, hmat, hw, hrel, hinitT,
          TemplateHandle.resetCachesDataOnly, TemplateHandle.setRenderableOverrideM,
          TemplateHandle.setDryRunViaIncrementalM]

/-- C5. In an incremental run, a qualifying path other than the changed
path is processed by the main loop as follows. If the path is in the
deletion-relevant set or its handle reports itself relevant to the changed
file: its data and render caches are both cleared, its read cache is
preserved, rendering is re-enabled when render-suppression is active, no
skip is counted, and a BuildEntry is registered. Otherwise: only its data
cache is cleared (read and render caches preserved), it is marked to
render from its existing cache contents (dry-run via incremental),
rendering is disabled when suppression is active, the skipped counter
grows by exactly one, and a BuildEntry is still registered. -/
theorem claim5_incremental_invalidation (env : BuildEnv) (isFullT : Bool)
    (rel : List String) (acc : AddAcc) (path f : String)
    (hf : acc.writer.incrementalFile = some f) (hfne : f ≠ "")
    (heng : env.hasEngine path = true)
    (hskip : (isFullT && acc.writer.incrementalFile == some path) = false)
    (hwf : ∀ t, cacheLookup acc.writer.templatePathCache path = some t →
      t.inputPath = path) :
    (addStep env isFullT false rel acc path).adds = acc.adds ++ [path] ∧
    ((stripLeadingDotSlash path ∈ rel ∨
        env.isFileRelevantToThisTemplate path f isFullT = true) →
      (handleAfter (addStep env isFullT false rel acc path) path).dataCache = false ∧
      (handleAfter (addStep env isFullT false rel acc path) path).renderCache = false ∧
      (handleAfter (addStep env isFullT false rel acc path) path).readCache
          = (preHandle acc.writer path).readCache ∧
      (acc.writer.isRunInitialBuild = false →
        (handleAfter (addStep env isFullT false rel acc path) path).renderableOverride
          = none) ∧
      (addStep env isFullT false rel acc path).writer.skippedCount
          = acc.writer.skippedCount) ∧
    (¬(stripLeadingDotSlash path ∈ rel ∨
        env.isFileRelevantToThisTemplate path f isFullT = true) →
      (handleAfter (addStep env isFullT false rel acc path) path).dataCache = false ∧
      (handleAfter (addStep env isFullT false rel acc path) path).renderCache
          = (preHandle acc.writer path).renderCache ∧
      (handleAfter (addStep env isFullT false rel acc path) path).readCache
          = (preHandle acc.writer path).readCache ∧
      (handleAfter (addStep env isFullT false rel acc path) path).isDryRunViaIncremental
          = true ∧
      (acc.writer.isRunInitialBuild = false →
        (handleAfter (addStep env isFullT false rel acc path) path).renderableOverride
          = some false) ∧
      (addStep env isFullT false rel acc path).writer.skippedCount
          = acc.writer.skippedCount + 1) := by
  obtain ⟨hha, hhs, hadds⟩ := addStep_handleAfter env isFullT rel acc path heng hskip
  obtain ⟨hr, hd, hrc, hti, hro, hdr⟩ := createTemplate_handle_caches acc.writer path
  have hip := createTemplate_handle_inputPath acc.writer path hwf
  obtain ⟨hcw1, hcw2, _, hcw4⟩ := createTemplate_preserves acc.writer path
  have hcwf : (acc.writer.createTemplate path).writer.incrementalFile = some f := by
    rw [hcw1, hf]
  refine ⟨hadds, fun hrel => ?_, fun hrel => ?_⟩
  · obtain ⟨hu1, hu2, hu3, hu4, hu5⟩ := loopHandleUpdate_relevant env isFullT rel
      (acc.writer.createTemplate path).writer (acc.writer.createTemplate path).handle
      (acc.writer.createTemplate path).wasCached f hcwf hfne (by rw [hip]; exact hrel)
    refine ⟨?_, ?_, ?_, fun hinit => ?_, ?_⟩
    · rw [hha, hu2]
    · rw [hha, hu3]
    · rw [hha, hu4, hr]
    · rw [hha]
      exact hu5 (by rw [hcw4, hinit])
    · rw [hhs, hu1, hcw2]
  · obtain ⟨hu1, hu2, hu3, hu4, hu5, hu6⟩ := loopHandleUpdate_irrelevant env isFullT rel
      (acc.writer.createTemplate path).writer (acc.writer.createTemplate path).handle
      (acc.writer.createTemplate path).wasCached f hcwf hfne (by rw [hip]; exact hrel)
    refine ⟨?_, ?_, ?_, ?_, fun hinit => ?_, ?_⟩
    · rw [hha, hu2]
    · rw [hha, hu3, hrc]
    · rw [hha, hu4, hr]
    · rw [hha, hu5]
    · rw [hha]
      exact hu6 (by rw [hcw4, hinit])
    · rw [hhs, hu1]
      simp [hcw2]

/-- Witness for C5 at two concrete incremental paths: dep.md is reported
relevant to the changed file and gets a full data-and-render reset with no
skip; a.md is not relevant and keeps its render cache while being marked
dry-run-via-incremental with one skip counted. -/
theorem claim5_incremental_invalidation_witness :
    ((handleAfter (addStep envA true false [] ⟨wIncChanged, [], []⟩ "dep.md")
        "dep.md").dataCache = false ∧
      (handleAfter (addStep envA true false [] ⟨wIncChanged, [], []⟩ "dep.md")
        "dep.md").renderCache = false ∧
      (addStep envA true false [] ⟨wIncChanged, [], []⟩ "dep.md").writer.skippedCount
        = wIncChanged.skippedCount) ∧
    ((handleAfter (addStep envA true false [] ⟨wIncChanged, [], []⟩ "a.md")
        "a.md").dataCache = false ∧
      (handleAfter (addStep envA true false [] ⟨wIncChanged, [], []⟩ "a.md")
        "a.md").renderCache
        = (preHandle wIncChanged "a.md").renderCache ∧
      (handleAfter (addStep envA true false [] ⟨wIncChanged, [], []⟩ "a.md")
        "a.md").isDryRunViaIncremental = true ∧
      (addStep envA true false [] ⟨wIncChanged, [], []⟩ "a.md").writer.skippedCount
        = wIncChanged.skippedCount + 1) := by
  have hwfnil : ∀ (p : String) (t : TemplateHandle),
      cacheLookup wIncChanged.templatePathCache p = some t → t.inputPath = p := by
    intro p t h
    simp [wIncChanged, cacheLookup] at h
  have h1 := claim5_incremental_invalidation envA true [] ⟨wIncChanged, [], []⟩
    "dep.md" "changed.md" rfl (by decide) (by decide) (by decide) (hwfnil "dep.md")
  have h2 := claim5_incremental_invalidation envA true [] ⟨wIncChanged, [], []⟩
    "a.md" "changed.md" rfl (by decide) (by decide) (by decide) (hwfnil "a.md")
  obtain ⟨-, hrel, -⟩ := h1
  obtain ⟨-, -, hirr⟩ := h2
  obtain ⟨a1, a2, a3, a4, a5⟩ := hrel (by right; decide)
  obtain ⟨b1, b2, b3, b4, b5, b6⟩ := hirr (by decide)
  exact ⟨⟨a1, a2, a5⟩, ⟨b1, b2, b4, b6⟩⟩

/-- The per-path update outside an incremental run under active
render-suppression (isRunInitialBuild false): a pre-existing handle gets
its renderable override reset to undefined and a full cache reset; a new
handle gets its renderable override set to false. -/
theorem loopHandleUpdate_noninc (env : BuildEnv) (isFullT : Bool) (rel : List String)
    (w : TemplateWriter) (tmpl : TemplateHandle) (wasCached : Bool)
    (h : jsTruthy w.incrementalFile = false) (hinit : w.isRunInitialBuild = false) :
    (wasCached = true →
      (loopHandleUpdate env isFullT rel w tmpl wasCached).handle
        = (tmpl.setRenderableOverrideM none).resetCachesAll) ∧
    (wasCached = false →
      (loopHandleUpdate env isFullT rel w tmpl wasCached).handle
        = tmpl.setRenderableOverrideM (some false)) := by
  constructor <;> intro hwc <;> subst hwc <;> simp [loopHandleUpdate, h, hinit]

/-- C8. In a non-incremental run while the no-initial-render suppression
mode is active (isRunInitialBuild false), the main loop gives every newly
created handle a renderable override of false (render disabled), and
gives every pre-existing handle a renderable override reset to undefined
(render enabled) together with a reset of all three sub-caches. -/
theorem claim8_no_initial_render (env : BuildEnv) (isFullT : Bool) (rel : List String)
    (acc : AddAcc) (path : String)
    (hinc : acc.writer.incrementalFile = none)
    (hinit : acc.writer.isRunInitialBuild = false)
    (heng : env.hasEngine path = true) :
    (cacheLookup acc.writer.templatePathCache path = none →
      (handleAfter (addStep env isFullT false rel acc path) path).renderableOverride
        = some false) ∧
    (∀ t0, cacheLookup acc.writer.templatePathCache path = some t0 →
      (handleAfter (addStep env isFullT false rel acc path) path).renderableOverride
          = none ∧
      (handleAfter (addStep env isFullT false rel acc path) path).readCache = false ∧
      (handleAfter (addStep env isFullT false rel acc path) path).dataCache = false ∧
      (handleAfter (addStep env isFullT false rel acc path) path).renderCache = false) := by
  have hskip : (isFullT && acc.writer.incrementalFile == some path) = false := by
    simp [hinc]
  obtain ⟨hha, hhs, hadds⟩ := addStep_handleAfter env isFullT rel acc path heng hskip
  obtain ⟨hcw1, _, _, hcw4⟩ := createTemplate_preserves acc.writer path
  have hcwinc : jsTruthy (acc.writer.createTemplate path).writer.incrementalFile = false := by
    rw [hcw1, hinc]; rfl
  have hcwinit : (acc.writer.createTemplate path).writer.isRunInitialBuild = false := by
    rw [hcw4, hinit]
  obtain ⟨hcached, hfresh⟩ := loopHandleUpdate_noninc env isFullT rel
    (acc.writer.createTemplate path).writer (acc.writer.createTemplate path).handle
    (acc.writer.createTemplate path).wasCached hcwinc hcwinit
  constructor
  · intro hnone
    have hwc : (acc.writer.createTemplate path).wasCached = false := by
      rw [createTemplate_wasCached, hnone]; rfl
    rw [hha, hfresh hwc]
    simp [TemplateHandle.setRenderableOverrideM]
  · intro t0 hsome
    have hwc : (acc.writer.createTemplate path).wasCached = true := by
      rw [createTemplate_wasCached, hsome]; rfl
    rw [hha, hcached hwc]
    simp [TemplateHandle.setRenderableOverrideM, TemplateHandle.resetCachesAll]

/-- A pre-existing handle that survived from a previous watch cycle: warm
caches and render previously disabled. -/
def warmHandle : TemplateHandle :=
  { freshHandle 0 "a.md" 0 with
      readCache := true, dataCache := true, renderCache := true,
      renderableOverride := some false }

/-- A writer in no-initial-render suppression mode whose cache holds the
warm handle for a.md and nothing else. -/
def wWatch : TemplateWriter :=
  { isRunInitialBuild := false, templatePathCache := [("a.md", warmHandle)] }

/-- Witness for C8 at a concrete suppressed run: the pre-existing a.md
handle comes out render-enabled with all sub-caches reset, and the newly
created b.md handle comes out render-disabled. -/
theorem claim8_no_initial_render_witness :
    ((handleAfter (addStep envA false false [] ⟨wWatch, [], []⟩ "a.md")
        "a.md").renderableOverride = none ∧
      (handleAfter (addStep envA false false [] ⟨wWatch, [], []⟩ "a.md")
        "a.md").readCache = false ∧
      (handleAfter (addStep envA false false [] ⟨wWatch, [], []⟩ "a.md")
        "a.md").dataCache = false ∧
      (handleAfter (addStep envA false false [] ⟨wWatch, [], []⟩ "a.md")
        "a.md").renderCache = false) ∧
    (handleAfter (addStep envA false false [] ⟨wWatch, [], []⟩ "b.md")
        "b.md").renderableOverride = some false := by
  have h1 := claim8_no_initial_render envA false [] ⟨wWatch, [], []⟩ "a.md"
    rfl rfl (by decide)
  have h2 := claim8_no_initial_render envA false [] ⟨wWatch, [], []⟩ "b.md"
    rfl rfl (by decide)
  exact ⟨h1.2 warmHandle (by decide), h2.1 (by decide)⟩

/-- C9. The write and skipped counters: restart resets both to zero; a
write run only accumulates them (classification can only add skips, and
generation can only add writes — no operation of the run resets either
counter); and a fresh run, which per the spec starts with the explicit
counter reset performed by the build driver, produces a result
independent of whatever counter values were accumulated before it. -/
theorem claim9_counters (env : BuildEnv) (mk : String → MapEntry) (w : TemplateWriter)
    (paths : List String) (sched : List Nat) (a b : Nat) :
    w.restart.writeCount = 0 ∧
    w.restart.skippedCount = 0 ∧
    w.writeCount ≤ (w.writeRun env mk paths sched).writeCount ∧
    w.skippedCount ≤ (w.writeRun env mk paths sched).skippedCount ∧
    TemplateWriter.freshRun env mk { w with writeCount := a, skippedCount := b } paths sched
      = TemplateWriter.freshRun env mk w paths sched := by
  obtain ⟨hmono, hwc⟩ := addToTemplateMap_counters env w paths
  refine ⟨rfl, rfl, ?_, ?_, ?_⟩
  · simp only [TemplateWriter.writeRun]
    rw [hwc]
    exact Nat.le_add_right _ _
  · simp only [TemplateWriter.writeRun]
    exact hmono
  · have hres : ({ w with writeCount := a, skippedCount := b } : TemplateWriter).restart
        = w.restart := by
      cases w
      rfl
    simp only [TemplateWriter.freshRun, hres]

end Eleventy
